import Mathlib

/-!
Verification of `steam-download-monitor` (Python, two monitor strategies).

Shallow embedding of the relevant parts of
`src/steam_download_monitor.py` (Strategy A: log reading) and
`src/steam_download_monitor_v2.py` (Strategy B: filesystem state).

File contents are modelled as `List Char`; a missing file is `none`.
Wall-clock times and file modification times are modelled as `Rat`,
byte counts as `Int`/`Nat`.
-/

namespace SteamMonitor

/-! ### Strategy A: log-cursor reader
`SteamDownloadMonitor._read_new_log_entries` (steam_download_monitor.py,
lines 118-134).  The method seeks the open file to `self.last_position`,
calls `readlines()`, and stores `f.tell()` back into `self.last_position`.
In CPython, seeking a text stream beyond the end of the file is allowed:
`readlines` then returns nothing and `tell()` reports the seeked
position, so the new cursor is `max last_position (length content)`. -/

/-- Python `readlines`: split after each newline, keeping the newline;
a trailing chunk without a newline is returned as a final line. -/
def readlinesAux : List Char → List Char → List (List Char)
  | [], acc => if acc.isEmpty then [] else [acc.reverse]
  | c :: rest, acc =>
    if c = '\n' then (acc.reverse ++ [c]) :: readlinesAux rest []
    else readlinesAux rest (c :: acc)

/-- Embedding of `_read_new_log_entries`: given the current file (none = missing) and
the stored cursor, return the freshly read lines and the new cursor. -/
def read_new_log_entries (file : Option (List Char)) (last_position : Nat) :
    List (List Char) × Nat :=
  match file with
  | none => ([], last_position)
  | some content =>
    (readlinesAux (content.drop last_position) [],
     max last_position content.length)

/-! ### Strategy A: log-line event extraction
`SteamDownloadMonitor._parse_log_line` (steam_download_monitor.py,
lines 89-116).  The method applies
`re.search(r'AppID (\d+).*?(\d+\.?\d*)\s*MB/s', line)` and, failing
that, a pause-keyword check plus `re.search(r'AppID (\d+)', line)`.
The two searches below implement exactly those patterns with Python's
leftmost-match, greedy/lazy backtracking semantics, specialised to the
concrete patterns (ASCII-faithful `\d`, `\s`, and `str.lower`). -/

/-- Python `\s` character class (ASCII part). -/
def pyIsSpace (c : Char) : Bool :=
  c = ' ' || c = '\t' || c = '\n' || c = '\r' || c = '\x0b' || c = '\x0c'

/-- Does the first list start with the second? -/
def startsWithChars : List Char → List Char → Bool
  | _, [] => true
  | [], _ :: _ => false
  | c :: cs, p :: ps => c = p && startsWithChars cs ps

/-- Substring containment on char lists. -/
def containsChars : List Char → List Char → Bool
  | [], pat => pat.isEmpty
  | c :: rest, pat => startsWithChars (c :: rest) pat || containsChars rest pat

/-- ASCII `str.lower`. -/
def charLower (c : Char) : Char :=
  if 'A' ≤ c && c ≤ 'Z' then Char.ofNat (c.toNat + 32) else c

/-- Check `'paused' in line.lower() or 'suspended' in line.lower()`
(steam_download_monitor.py, lines 105 and 111). -/
def hasPauseKeyword (line : String) : Bool :=
  let low := line.toList.map charLower
  containsChars low ['p', 'a', 'u', 's', 'e', 'd'] ||
    containsChars low ['s', 'u', 's', 'p', 'e', 'n', 'd', 'e', 'd']

/-- Match `\d+\.?\d*\s*MB/s` at the head of the list, returning the
numeric capture group.  Greedy `\d+`/`\d*`/`\s*` with the optional dot
tried first (consuming), exactly as the backtracking engine orders the
alternatives; for this pattern the only live choice point is `\.?`. -/
def matchUnitTail (cs : List Char) : Option (List Char) :=
  let (d1, r1) := cs.span (fun c => c.isDigit)
  if d1.isEmpty then none
  else
    let withDot : Option (List Char) :=
      match r1 with
      | '.' :: r2 =>
        let (d2, r3) := r2.span (fun c => c.isDigit)
        let r4 := r3.dropWhile pyIsSpace
        if startsWithChars r4 ['M', 'B', '/', 's'] then
          some (d1 ++ '.' :: d2)
        else none
      | _ => none
    match withDot with
    | some g => some g
    | none =>
      let r4 := r1.dropWhile pyIsSpace
      if startsWithChars r4 ['M', 'B', '/', 's'] then some d1 else none

/-- Lazy `.*?`: try the unit tail at the current position first, then
one character further, left to right. -/
def tryLazyGap : List Char → Option (List Char)
  | [] => none
  | c :: rest =>
    match matchUnitTail (c :: rest) with
    | some g => some g
    | none => tryLazyGap rest

/-- Greedy backtracking for the first capture `(\d+)`: the argument is
the reversed candidate for group 1; on failure its last digit is moved
into the stream scanned by the lazy gap, shrinking group 1 down to one
digit. -/
def tryGroup1Aux : List Char → List Char → Option (List Char × List Char)
  | [], _ => none
  | d :: g1rev, stream =>
    match tryLazyGap stream with
    | some g2 => some ((d :: g1rev).reverse, g2)
    | none =>
      match g1rev with
      | [] => none
      | _ :: _ => tryGroup1Aux g1rev (d :: stream)

/-- Anchored attempt of `AppID (\d+).*?(\d+\.?\d*)\s*MB/s`. -/
def searchSpeedAt (cs : List Char) : Option (List Char × List Char) :=
  if startsWithChars cs ['A', 'p', 'p', 'I', 'D', ' '] then
    let (digits, after) := (cs.drop 6).span (fun c => c.isDigit)
    match digits with
    | [] => none
    | _ :: _ => tryGroup1Aux digits.reverse after
  else none

/-- Search `re.search` of the speed pattern: leftmost starting position wins. -/
def searchSpeed : List Char → Option (List Char × List Char)
  | [] => none
  | c :: rest =>
    match searchSpeedAt (c :: rest) with
    | some r => some r
    | none => searchSpeed rest

/-- Anchored attempt of `AppID (\d+)`. -/
def searchAppIdAt (cs : List Char) : Option (List Char) :=
  if startsWithChars cs ['A', 'p', 'p', 'I', 'D', ' '] then
    let (digits, _) := (cs.drop 6).span (fun c => c.isDigit)
    if digits.isEmpty then none else some digits
  else none

/-- Search `re.search(r'AppID (\d+)', line)`. -/
def searchAppId : List Char → Option (List Char)
  | [] => none
  | c :: rest =>
    match searchAppIdAt (c :: rest) with
    | some r => some r
    | none => searchAppId rest

/-- Numeric value of a digit run. -/
def digitsToNat (ds : List Char) : Nat :=
  ds.foldl (fun a c => 10 * a + (c.toNat - 48)) 0

/-- Python `float(...)` on a capture of shape `\d+\.?\d*`, as an exact
rational. -/
def pyFloat (cs : List Char) : Rat :=
  let (ip, rest) := cs.span (fun c => c.isDigit)
  match rest with
  | '.' :: fs =>
    let (fp, _) := fs.span (fun c => c.isDigit)
    (digitsToNat ip : Rat) + (digitsToNat fp : Rat) / ((10 : Rat) ^ fp.length)
  | _ => (digitsToNat ip : Rat)

/-- Embedding of `_parse_log_line` (steam_download_monitor.py, lines 89-116):
speed pattern first, with the pause keywords downgrading the status;
otherwise the pause keywords plus a bare `AppID (\d+)` match. -/
def parse_log_line (line : String) : Option (String × Rat × String) :=
  match searchSpeed line.toList with
  | some (g1, g2) =>
    let status := if hasPauseKeyword line then "paused" else "downloading"
    some (String.mk g1, pyFloat g2, status)
  | none =>
    if hasPauseKeyword line then
      match searchAppId line.toList with
      | some g => some (String.mk g, 0, "paused")
      | none => none
    else none

/-! ### Strategy B: size-based speed estimator
`SteamDownloadMonitorV2._estimate_download_speed`
(steam_download_monitor_v2.py, lines 145-179) together with the state
initialised in `__init__` (line 20): `self.download_stats = []` — a
Python *list*.  The method then uses the state with dict idioms:
`self.download_stats[app_id]` both to read (line 166) and to store
(lines 172, 175) the `(total_size, current_time)` sample.  Indexing a
Python list with a string raises `TypeError`, which the surrounding
`try`/`except Exception` turns into `return 0.0` with the state left
untouched.  The embedding keeps these runtime errors explicit. -/

/-- A Python value that can live in `download_stats`: the string key
used by the `in` test, or the `(size, time)` tuple the code tries to
store. -/
inductive PyVal where
  | vStr : String → PyVal
  | vPair : Int → Rat → PyVal
deriving DecidableEq, Repr

/-- Python `==` across these values: a string never equals a tuple. -/
def pyEq : PyVal → PyVal → Bool
  | .vStr a, .vStr b => a = b
  | .vPair a b, .vPair c d => a = c && b = d
  | _, _ => false

/-- The runtime type of `self.download_stats` (a list, per line 20). -/
abbrev DownloadStats := List PyVal

inductive PyError where
  | typeError
deriving DecidableEq, Repr

/-- Read `stats[app_id]` where `stats` is a list: `TypeError`. -/
def listGetItemStr (_ : DownloadStats) (_ : String) : Except PyError PyVal :=
  .error .typeError

/-- Store `stats[app_id] = v` where `stats` is a list: `TypeError`. -/
def listSetItemStr (_ : DownloadStats) (_ : String) (_ : PyVal) :
    Except PyError DownloadStats :=
  .error .typeError

/-- The `try` body of `_estimate_download_speed` (lines 154-176), after
the total size has been summed: the membership test, the sample read,
the rate computation, and the two store sites, with list-vs-dict
indexing raising as in Python. -/
def estimateBody (stats : DownloadStats) (app_id : String)
    (total_size : Int) (now : Rat) : Except PyError (Rat × DownloadStats) :=
  let fallthrough : Except PyError (Rat × DownloadStats) := do
    let s2 ← listSetItemStr stats app_id (.vPair total_size now)
    pure (0, s2)
  if stats.any (fun v => pyEq v (.vStr app_id)) then do
    let v ← listGetItemStr stats app_id
    match v with
    | .vPair last_size last_time =>
      let time_diff := now - last_time
      if 0 < time_diff then do
        let size_diff : Rat := (total_size : Rat) - (last_size : Rat)
        let speed_mb_per_sec := size_diff / time_diff / (1024 * 1024)
        let s2 ← listSetItemStr stats app_id (.vPair total_size now)
        pure (max 0 speed_mb_per_sec, s2)
      else fallthrough
    | .vStr _ => .error .typeError
  else fallthrough

/-- Embedding of `_estimate_download_speed` (lines 145-179): missing staging
directory short-circuits to 0.0; `file_sizes` are the sizes found by
the `os.walk` over the staging directory; any exception in the body
yields 0.0 with the state unchanged. -/
def estimate_download_speed (stats : DownloadStats) (app_id : String)
    (dirExists : Bool) (file_sizes : List Int) (now : Rat) :
    Rat × DownloadStats :=
  if dirExists then
    let total_size := file_sizes.foldl (· + ·) 0
    match estimateBody stats app_id total_size now with
    | .ok r => r
    | .error _ => (0, stats)
  else (0, stats)

/-! ### Strategy B: active-download discovery
`SteamDownloadMonitorV2._get_downloading_apps`
(steam_download_monitor_v2.py, lines 90-143).  Per library root the
loop walks the `appmanifest_<id>.acf` files; for each it appends the id
when `downloading/<id>` exists (line 127-128, with no duplicate check)
and then, when the manifest's StateFlags capture is `2`, `4` or `6`,
appends the id only if not already present (lines 136-139). -/

/-- One `appmanifest_<id>.acf` file found under a library root:
whether `downloading/<id>` exists next to it, and the StateFlags
capture of the manifest, if the file was readable and matched. -/
structure ManifestEntry where
  app_id : String
  stagingExists : Bool
  stateFlags : Option String
deriving DecidableEq, Repr

/-- Test `state_match.group(1) in ['2', '4', '6']` (line 137), `false`
when the manifest had no readable StateFlags capture. -/
def stateFlagsActive : Option String → Bool
  | some s => s = "2" || s = "4" || s = "6"
  | none => false

/-- The loop body for one manifest file (lines 120-141). -/
def processEntry (acc : List String) (e : ManifestEntry) : List String :=
  let acc1 := if e.stagingExists then acc ++ [e.app_id] else acc
  if stateFlagsActive e.stateFlags && !(decide (e.app_id ∈ acc1)) then
    acc1 ++ [e.app_id]
  else acc1

/-- Embedding of `_get_downloading_apps`: fold the loop body over every manifest of
every existing library root, in order. -/
def get_downloading_apps (roots : List (List ManifestEntry)) : List String :=
  roots.foldl (fun acc entries => entries.foldl processEntry acc) []

/-- An entry makes its id a discovery candidate (either branch). -/
def entryHit (e : ManifestEntry) : Bool :=
  e.stagingExists || stateFlagsActive e.stateFlags

/-! ### Strategy B: per-app record construction
The per-app tail of `SteamDownloadMonitorV2.get_download_info`
(steam_download_monitor_v2.py, lines 189-222): the activity check over
the staging directory's file modification times and the emitted record. -/

structure DownloadRecord where
  app_id : String
  game_name : String
  speed_mbps : Rat
  status : String
deriving DecidableEq, Repr

/-- Lines 196-222: `latest_mtime` is the maximum over the walked files
starting from `0`; `is_active` requires the staging directory to exist
and the newest modification to be strictly less than 120 seconds old;
a paused record zeroes the speed. -/
def mkRecord (app_id game_name : String) (speed : Rat) (dirExists : Bool)
    (now : Rat) (mtimes : List Rat) : DownloadRecord :=
  let latest_mtime := mtimes.foldl max 0
  let is_active := dirExists && decide (now - latest_mtime < 120)
  { app_id := app_id
    game_name := game_name
    speed_mbps := if is_active then speed else 0
    status := if is_active then "downloading" else "paused" }

/-! ### Monitor-loop setup guard
`SteamDownloadMonitor.monitor` (steam_download_monitor.py, lines
161-171) and `SteamDownloadMonitorV2.monitor`
(steam_download_monitor_v2.py, lines 226-230): when `_find_steam_path`
returned `None`, both print the not-found error and return before the
polling loop.  The loop bodies are modelled as the observable polls
they perform: each Strategy A check reads the log through
`read_new_log_entries`; each Strategy B check scans the library roots
through `get_downloading_apps`. -/

inductive MonitorEvent where
  | reportNotFound
  | logRead
  | dirScan
deriving DecidableEq, Repr

/-- The Strategy A polling loop: one `logRead` per check, threading the
cursor through `read_new_log_entries`. -/
def runPollsA : List (Option (List Char)) → Nat → List MonitorEvent
  | [], _ => []
  | f :: fs, pos => .logRead :: runPollsA fs (read_new_log_entries f pos).2

/-- Embedding of `SteamDownloadMonitor.monitor`: the guard on `self.steam_path`
followed by the polling loop over the observed file states. -/
def monitorA (steam_path : Option String)
    (files : List (Option (List Char))) : List MonitorEvent :=
  match steam_path with
  | none => [.reportNotFound]
  | some _ => runPollsA files 0

/-- Embedding of `SteamDownloadMonitorV2.monitor`: the guard on `self.steam_path`
followed by one directory scan per check. -/
def monitorB (steam_path : Option String)
    (configs : List (List (List ManifestEntry))) : List MonitorEvent :=
  match steam_path with
  | none => [.reportNotFound]
  | some _ => configs.map (fun cfg => ((get_downloading_apps cfg), MonitorEvent.dirScan).2)

/-! ## Helper lemmas -/

theorem read_none (pos : Nat) :
    read_new_log_entries none pos = ([], pos) := rfl

theorem read_cursor_mono (file : Option (List Char)) (pos : Nat) :
    pos ≤ (read_new_log_entries file pos).2 := by
  cases file with
  | none => exact Nat.le_refl pos
  | some content => exact Nat.le_max_left _ _

theorem read_cursor_eq_length (content : List Char) (pos : Nat)
    (h : pos ≤ content.length) :
    (read_new_log_entries (some content) pos).2 = content.length := by
  simp [read_new_log_entries, Nat.max_eq_right h]

theorem read_repoll_empty (content : List Char) (pos : Nat) :
    (read_new_log_entries (some content)
      (read_new_log_entries (some content) pos).2).1 = [] := by
  have h : content.length ≤ max pos content.length := Nat.le_max_right _ _
  simp [read_new_log_entries, List.drop_eq_nil_of_le h, readlinesAux]

theorem mem_processEntry (acc : List String) (e : ManifestEntry)
    (id : String) :
    id ∈ processEntry acc e ↔
      id ∈ acc ∨ (e.app_id = id ∧ entryHit e = true) := by
  unfold processEntry entryHit
  cases hs : e.stagingExists with
  | true =>
    have hmem : e.app_id ∈ acc ++ [e.app_id] :=
      List.mem_append_right _ (List.mem_singleton_self _)
    simp [hmem, List.mem_append, eq_comm]
  | false =>
    cases hf : stateFlagsActive e.stateFlags with
    | false => simp
    | true =>
      by_cases hm : e.app_id ∈ acc
      · simp [hm]
        intro h
        exact h ▸ hm
      · simp [hm, List.mem_append, eq_comm]

theorem mem_foldl_entries (entries : List ManifestEntry)
    (acc : List String) (id : String) :
    id ∈ entries.foldl processEntry acc ↔
      id ∈ acc ∨ ∃ e, e ∈ entries ∧ e.app_id = id ∧ entryHit e = true := by
  induction entries generalizing acc with
  | nil => simp
  | cons e es ih =>
    simp only [List.foldl_cons, ih, mem_processEntry, List.mem_cons]
    constructor
    · rintro ((h | h) | ⟨e1, he1, h1, h2⟩)
      · exact Or.inl h
      · exact Or.inr ⟨e, Or.inl rfl, h⟩
      · exact Or.inr ⟨e1, Or.inr he1, h1, h2⟩
    · rintro (h | ⟨e1, (rfl | he1), h1, h2⟩)
      · exact Or.inl (Or.inl h)
      · exact Or.inl (Or.inr ⟨h1, h2⟩)
      · exact Or.inr ⟨e1, he1, h1, h2⟩

theorem mem_foldl_roots (roots : List (List ManifestEntry))
    (acc : List String) (id : String) :
    id ∈ roots.foldl (fun a entries => entries.foldl processEntry a) acc ↔
      id ∈ acc ∨ ∃ entries, entries ∈ roots ∧
        ∃ e, e ∈ entries ∧ e.app_id = id ∧ entryHit e = true := by
  induction roots generalizing acc with
  | nil => simp
  | cons r rs ih =>
    simp only [List.foldl_cons, ih, mem_foldl_entries, List.mem_cons]
    constructor
    · rintro ((h | h) | ⟨es, hes, h1⟩)
      · exact Or.inl h
      · exact Or.inr ⟨r, Or.inl rfl, h⟩
      · exact Or.inr ⟨es, Or.inr hes, h1⟩
    · rintro (h | ⟨es, (rfl | hes), h1⟩)
      · exact Or.inl (Or.inl h)
      · exact Or.inl (Or.inr h1)
      · exact Or.inr ⟨es, hes, h1⟩

/-! ## Claim theorems -/

/-- C1 (code bug): from the initial state, polls totalling 100 MiB at
t = 1000 s and 150 MiB at t = 1010 s both report 0.0 rather than the
claimed 5.0 MB/s: `download_stats` is initialised as a list, the
dict-style store raises TypeError, the except clause returns 0.0, and
no sample is ever recorded. -/
theorem C1_rate_bug_eval :
    (estimate_download_speed [] "123" true [104857600] 1000).1 = 0 ∧
    (estimate_download_speed
      (estimate_download_speed [] "123" true [104857600] 1000).2
      "123" true [157286400] 1010).1 = 0 ∧
    (estimate_download_speed
      (estimate_download_speed [] "123" true [104857600] 1000).2
      "123" true [157286400] 1010).1 ≠ 5 := by
  decide

/-- C2 (code bug): after the first poll the stored state is still the
empty list — the claimed sample (currentSize, now) is never written,
because the dict-style store into the list raises TypeError. -/
theorem C2_state_bug_eval :
    (estimate_download_speed [] "123" true [104857600] 1000).2 = [] ∧
    ([] : DownloadStats) ≠ [PyVal.vPair 104857600 1000] := by
  decide

/-- C3 counterexample: poll a 5-byte log, then poll again after the file
was truncated to 2 bytes; the stored cursor stays at 5, strictly above
the new file length, refuting the claim that after every poll the
cursor never exceeds the current file length. -/
theorem C3_cursor_counterexample :
    (read_new_log_entries (some ['a', 'b'])
      (read_new_log_entries (some ['a', 'b', 'c', 'd', 'e']) 0).2).2 = 5 ∧
    ¬ ((read_new_log_entries (some ['a', 'b'])
      (read_new_log_entries (some ['a', 'b', 'c', 'd', 'e']) 0).2).2 ≤
        (['a', 'b'] : List Char).length) := by
  decide

/-- C3 (amended): across any polls the cursor never decreases, and
whenever the file has not shrunk below the cursor (the cursor is at
most the current length, as for a file that only grows) the post-poll
cursor is at most the file length; truncation below the cursor can
leave the cursor above the length. -/
theorem C3_cursor_amended (file : Option (List Char)) (pos : Nat) :
    pos ≤ (read_new_log_entries file pos).2 ∧
    (∀ content, file = some content → pos ≤ content.length →
      (read_new_log_entries file pos).2 ≤ content.length) := by
  refine ⟨read_cursor_mono file pos, ?_⟩
  intro content hf h
  subst hf
  rw [read_cursor_eq_length content pos h]

/-- Witness for C3 (amended) at a concrete poll. -/
theorem C3_cursor_amended_witness :
    0 ≤ (read_new_log_entries (some ['a', 'b']) 0).2 ∧
    (read_new_log_entries (some ['a', 'b']) 0).2 ≤ 2 :=
  ⟨(C3_cursor_amended (some ['a', 'b']) 0).1,
   (C3_cursor_amended (some ['a', 'b']) 0).2 ['a', 'b'] rfl (by decide)⟩

/-- C4: a poll of a missing log file returns no lines and leaves the
cursor unchanged; and re-polling the same unchanged file immediately
after a poll returns no lines. -/
theorem C4_empty_poll :
    (∀ pos : Nat, read_new_log_entries none pos = ([], pos)) ∧
    (∀ (content : List Char) (pos : Nat),
      (read_new_log_entries (some content)
        (read_new_log_entries (some content) pos).2).1 = []) :=
  ⟨read_none, read_repoll_empty⟩

/-- Witness for C4 at a concrete missing file and a concrete re-poll. -/
theorem C4_empty_poll_witness :
    read_new_log_entries none 3 = ([], 3) ∧
    (read_new_log_entries (some ['a', '\n', 'b'])
      (read_new_log_entries (some ['a', '\n', 'b']) 0).2).1 = [] :=
  ⟨C4_empty_poll.1 3, C4_empty_poll.2 ['a', '\n', 'b'] 0⟩

/-- C5: whenever the speed pattern matches a line, the parsed event
carries the captured identifier, the captured numeric value, and the
paused status exactly when the line contains a pause/suspend keyword
(case-insensitively); otherwise the status is downloading. -/
theorem C5_speed_event (line : String) (g1 g2 : List Char)
    (h : searchSpeed line.toList = some (g1, g2)) :
    parse_log_line line =
      some (String.mk g1, pyFloat g2,
        if hasPauseKeyword line then "paused" else "downloading") := by
  unfold parse_log_line
  rw [h]

/-- Witness for C5 on the spec's example line. -/
theorem C5_speed_event_witness :
    parse_log_line "AppID 123 update, downloaded 10 MB at 5.50 MB/s" =
      some ("123", (11 : Rat) / 2, "downloading") := by
  have h := C5_speed_event "AppID 123 update, downloaded 10 MB at 5.50 MB/s"
    ['1', '2', '3'] ['5', '.', '5', '0'] (by decide)
  rw [h]
  have hp : hasPauseKeyword
      "AppID 123 update, downloaded 10 MB at 5.50 MB/s" = false := by decide
  have hs1 : (['5', '.', '5', '0'].span (fun c => c.isDigit)) =
      (['5'], ['.', '5', '0']) := by decide
  have hs2 : (['5', '0'].span (fun c => c.isDigit)) = (['5', '0'], []) := by
    decide
  have hd1 : digitsToNat ['5'] = 5 := by decide
  have hd2 : digitsToNat ['5', '0'] = 50 := by decide
  have hv : pyFloat ['5', '.', '5', '0'] = 11 / 2 := by
    simp only [pyFloat, hs1, hs2, hd1, hd2, List.length_cons, List.length_nil]
    norm_num
  rw [hp, hv]
  simp

/-- C6: when the speed pattern does not match, a line with a
pause/suspend keyword and a bare identifier match yields
(identifier, 0.0, paused); a line matching neither shape yields
nothing. -/
theorem C6_pause_event :
    (∀ (line : String) (g : List Char),
      searchSpeed line.toList = none → hasPauseKeyword line = true →
      searchAppId line.toList = some g →
      parse_log_line line = some (String.mk g, 0, "paused")) ∧
    (∀ line : String,
      searchSpeed line.toList = none →
      (hasPauseKeyword line = false ∨ searchAppId line.toList = none) →
      parse_log_line line = none) := by
  constructor
  · intro line g h1 h2 h3
    unfold parse_log_line
    rw [h1, h2, h3]
    simp
  · intro line h1 h2
    unfold parse_log_line
    rw [h1]
    rcases h2 with h2 | h2
    · simp [h2]
    · rw [h2]
      cases hp : hasPauseKeyword line <;> simp

/-- Witness for C6 on the spec's pause example and a no-match line. -/
theorem C6_pause_event_witness :
    parse_log_line "AppID 123 paused" = some ("123", 0, "paused") ∧
    parse_log_line "no downloads here" = none :=
  ⟨(C6_pause_event.1 "AppID 123 paused" ['1', '2', '3'] (by decide)
      (by decide) (by decide)).trans (by decide),
   C6_pause_event.2 "no downloads here" (by decide) (Or.inl (by decide))⟩

/-- C7: with the staging directory present, the emitted record's status
is downloading iff now minus the maximal modification time (0 when no
files were found) is strictly below 120 seconds; at exactly 120
seconds it is paused. -/
theorem C7_activity_boundary (now : Rat) (mtimes : List Rat)
    (a g : String) (sp : Rat) :
    ((mkRecord a g sp true now mtimes).status = "downloading" ↔
      now - mtimes.foldl max 0 < 120) ∧
    (mkRecord a g sp true (mtimes.foldl max 0 + 120) mtimes).status =
      "paused" := by
  constructor
  · unfold mkRecord
    by_cases h : now - mtimes.foldl max 0 < 120
    · simp [h]
    · simp [h]
  · unfold mkRecord
    have h2 : ¬ (mtimes.foldl max 0 + 120 - mtimes.foldl max 0 <
        (120 : Rat)) := by
      rw [add_sub_cancel_left]
      exact lt_irrefl _
    simp [h2]

/-- Witness for C7 at concrete times 100 s and 120 s past the newest
modification. -/
theorem C7_activity_boundary_witness :
    (mkRecord "1" "g" 3 true 100 []).status = "downloading" ∧
    (mkRecord "1" "g" 3 true
      (([] : List Rat).foldl max 0 + 120) []).status = "paused" :=
  ⟨(C7_activity_boundary 100 [] "1" "g" 3).1.mpr (by norm_num [List.foldl]),
   (C7_activity_boundary 100 [] "1" "g" 3).2⟩

/-- C8 counterexample: one app whose manifest and staging directory are
present under two library roots is appended once per root by the
staging branch, which has no duplicate check, so the discovered list
contains the identifier twice, refuting at-most-once. -/
theorem C8_dedup_counterexample :
    get_downloading_apps
      [[⟨"7", true, none⟩], [⟨"7", true, none⟩]] = ["7", "7"] ∧
    ¬ ((get_downloading_apps
      [[⟨"7", true, none⟩], [⟨"7", true, none⟩]]).count "7" ≤ 1) := by
  decide

/-- C8 (amended): an identifier is discovered iff some library root
holds a manifest entry for it whose staging directory exists or whose
StateFlags capture is 2, 4 or 6; only the StateFlags branch
deduplicates, so a staging-directory match can appear once per root. -/
theorem C8_discovery_amended (roots : List (List ManifestEntry))
    (id : String) :
    id ∈ get_downloading_apps roots ↔
      ∃ entries, entries ∈ roots ∧
        ∃ e, e ∈ entries ∧ e.app_id = id ∧ entryHit e = true := by
  unfold get_downloading_apps
  simpa using mem_foldl_roots roots [] id

/-- Witness for C8 (amended) at a concrete one-root configuration. -/
theorem C8_discovery_amended_witness :
    "7" ∈ get_downloading_apps [[⟨"7", true, none⟩]] :=
  (C8_discovery_amended [[⟨"7", true, none⟩]] "7").mpr
    ⟨[⟨"7", true, none⟩], by simp, ⟨"7", true, none⟩, by simp, rfl, rfl⟩

/-- C9: when install-root resolution failed, both monitor loops report
the not-found condition and stop immediately: the Strategy A trace
contains no log read and the Strategy B trace no directory scan, for
any sequence of file states the loops would otherwise have polled. -/
theorem C9_setup_guard (files : List (Option (List Char)))
    (configs : List (List (List ManifestEntry))) :
    monitorA none files = [MonitorEvent.reportNotFound] ∧
    monitorB none configs = [MonitorEvent.reportNotFound] ∧
    MonitorEvent.logRead ∉ monitorA none files ∧
    MonitorEvent.dirScan ∉ monitorB none configs := by
  refine ⟨rfl, rfl, ?_, ?_⟩ <;> simp [monitorA, monitorB]

/-- Witness for C9 at concrete poll inputs. -/
theorem C9_setup_guard_witness :
    monitorA none [some ['a']] = [MonitorEvent.reportNotFound] ∧
    monitorB none [[[⟨"7", true, none⟩]]] = [MonitorEvent.reportNotFound] :=
  ⟨(C9_setup_guard [some ['a']] [[[⟨"7", true, none⟩]]]).1,
   (C9_setup_guard [some ['a']] [[[⟨"7", true, none⟩]]]).2.1⟩

/-- C10: every record emitted with status paused carries speed 0.0,
even when the size-based estimate passed in was positive. -/
theorem C10_paused_zero_speed (a g : String) (sp : Rat) (d : Bool)
    (now : Rat) (mt : List Rat)
    (h : (mkRecord a g sp d now mt).status = "paused") :
    (mkRecord a g sp d now mt).speed_mbps = 0 := by
  unfold mkRecord at h ⊢
  by_cases hb : (d && decide (now - mt.foldl max 0 < 120)) = true
  · simp only [hb, if_true] at h
    exact absurd h (by decide)
  · simp only [Bool.not_eq_true] at hb
    simp [hb]

/-- Witness for C10 at a paused record with a positive estimate. -/
theorem C10_paused_zero_speed_witness :
    (mkRecord "1" "g" 5 false 0 []).speed_mbps = 0 :=
  C10_paused_zero_speed "1" "g" 5 false 0 [] (by decide)

end SteamMonitor
